import Mathlib

/-
  Verification of pbrt-v4 `src/pbrt/materials.h` against its natural-language
  specification.  The material-evaluation core is shallowly embedded: the pbrt
  32-bit `Float` is modelled by an exact ordered field (`ℚ` where the claims
  are decidable, `ℝ` where square roots appear); textures and the
  `TextureEvaluator` policy are modelled as function parameters, mirroring the
  template parameter in the source; nullable handles (`FloatTexture`,
  `SpectrumTexture`, `Image *`) are `Option`s; `LOG_FATAL` / failed `CHECK`
  branches surface as an explicit error result.
-/

set_option autoImplicit false
set_option linter.unusedVariables false

namespace PbrtMaterials

/-- Componentwise 3-vector, modelling the pbrt `Vector3f` / `Normal3f` /
`Point3f` (all of which are triples of `Float`, freely converted into each
other in `materials.h`). -/
structure Vector3 (α : Type) where
  x : α
  y : α
  z : α
deriving DecidableEq

instance {α : Type} [Add α] : Add (Vector3 α) where
  add a b := ⟨a.x + b.x, a.y + b.y, a.z + b.z⟩

instance {α : Type} [Sub α] : Sub (Vector3 α) where
  sub a b := ⟨a.x - b.x, a.y - b.y, a.z - b.z⟩

instance {α : Type} [Mul α] : SMul α (Vector3 α) where
  smul c v := ⟨c * v.x, c * v.y, c * v.z⟩

/-- pbrt `Dot`. -/
def Vector3.dot {α : Type} [Mul α] [Add α] (a b : Vector3 α) : α :=
  a.x * b.x + a.y * b.y + a.z * b.z

/-- pbrt `Cross`. -/
def Vector3.cross {α : Type} [Mul α] [Sub α] (a b : Vector3 α) : Vector3 α :=
  ⟨a.y * b.z - a.z * b.y, a.z * b.x - a.x * b.z, a.x * b.y - a.y * b.x⟩

/-- pbrt `LengthSquared`. -/
def Vector3.normSq {α : Type} [Mul α] [Add α] (v : Vector3 α) : α :=
  v.x * v.x + v.y * v.y + v.z * v.z

/-- Scalar multiplication written on the right, mirroring the pbrt
`vector * scalar`. -/
def Vector3.mulScalar {α : Type} [Mul α] (v : Vector3 α) (s : α) : Vector3 α :=
  ⟨v.x * s, v.y * s, v.z * s⟩

/-- Componentwise division by a scalar, mirroring the pbrt `vector / scalar`. -/
def Vector3.divScalar {α : Type} [Div α] (v : Vector3 α) (s : α) : Vector3 α :=
  ⟨v.x / s, v.y / s, v.z / s⟩

/-- The all-zero vector. -/
def Vector3.zero {α : Type} [Zero α] : Vector3 α := ⟨0, 0, 0⟩

/-- pbrt `TextureEvalContext` (src/pbrt/textures.h, used throughout
`materials.h`): position, screen-space position derivatives, `uv`, the
screen-space `uv` derivatives and a face index. -/
structure TextureEvalContext (α : Type) where
  p : Vector3 α
  dpdx : Vector3 α
  dpdy : Vector3 α
  uv : α × α
  dudx : α
  dudy : α
  dvdx : α
  dvdy : α
  faceIndex : Int
deriving DecidableEq

/-- The anonymous `shading` sub-struct of `BumpEvalContext`
(materials.h:76-80). -/
structure ShadingGeometry (α : Type) where
  n : Vector3 α
  dpdu : Vector3 α
  dpdv : Vector3 α
  dndu : Vector3 α
  dndv : Vector3 α
deriving DecidableEq

/-- pbrt `BumpEvalContext` (materials.h:46-84). -/
structure BumpEvalContext (α : Type) where
  p : Vector3 α
  uv : α × α
  shading : ShadingGeometry α
  dudx : α
  dudy : α
  dvdx : α
  dvdy : α
  dpdx : Vector3 α
  dpdy : Vector3 α
  faceIndex : Int
deriving DecidableEq

/-- The conversion `BumpEvalContext::operator TextureEvalContext`
(materials.h:68-71). -/
def BumpEvalContext.toTextureEvalContext {α : Type} (ctx : BumpEvalContext α) :
    TextureEvalContext α :=
  ⟨ctx.p, ctx.dpdx, ctx.dpdy, ctx.uv, ctx.dudx, ctx.dudy, ctx.dvdx, ctx.dvdy,
    ctx.faceIndex⟩

/-- The displacement-texture path of `Bump` (materials.h:92-119).  The
`TextureEvaluator` template parameter becomes the function argument `texEval`
applied to the abstract texture handle type `T`; the result is the pair of
perturbed tangents written through `*dpdu` / `*dpdv`. -/
def bumpDisplacement {α : Type} [LinearOrderedField α] {T : Type}
    (texEval : T → TextureEvalContext α → α) (displacement : T)
    (ctx : BumpEvalContext α) : Vector3 α × Vector3 α :=
  let du0 := (1 / 2 : α) * (|ctx.dudx| + |ctx.dudy|)
  let du := if du0 = 0 then 5 / 10000 else du0
  let shiftedCtxU : TextureEvalContext α :=
    { ctx.toTextureEvalContext with
        p := ctx.p + du • ctx.shading.dpdu
        uv := (ctx.uv.1 + du, ctx.uv.2) }
  let uDisplace := texEval displacement shiftedCtxU
  let dv0 := (1 / 2 : α) * (|ctx.dvdx| + |ctx.dvdy|)
  let dv := if dv0 = 0 then 5 / 10000 else dv0
  let shiftedCtxV : TextureEvalContext α :=
    { ctx.toTextureEvalContext with
        p := ctx.p + dv • ctx.shading.dpdv
        uv := (ctx.uv.1, ctx.uv.2 + dv) }
  let vDisplace := texEval displacement shiftedCtxV
  let displace := texEval displacement ctx.toTextureEvalContext
  (ctx.shading.dpdu + ((uDisplace - displace) / du) • ctx.shading.n
      + displace • ctx.shading.dndu,
   ctx.shading.dpdv + ((vDisplace - displace) / dv) • ctx.shading.n
      + displace • ctx.shading.dndv)

/-- The normal-map path of `Bump`: re-orthogonalization of the tangent frame
around the sampled shading normal `ns` (materials.h:132-134).  `ns` is the
world-space normal decoded from the normal-map image (materials.h:123-130);
the image bilinear sampling and the `Frame` rotation that produce it belong to
external collaborators, so `ns` enters as a parameter here.  Works over `ℝ`
because `Normalize` and `Length` take square roots. -/
noncomputable def vecLength (v : Vector3 ℝ) : ℝ := Real.sqrt v.normSq

/-- pbrt `Normalize(v) = v / Length(v)`. -/
noncomputable def vecNormalize (v : Vector3 ℝ) : Vector3 ℝ :=
  v.divScalar (vecLength v)

/-- pbrt `GramSchmidt(v, w) = v - Dot(v, w) * w`. -/
def vecGramSchmidt (v w : Vector3 ℝ) : Vector3 ℝ := v - (v.dot w) • w

/-- The perturbed `*dpdu` of the normal-map path (materials.h:132-133). -/
noncomputable def bumpNormalMapDpdu (ns dpdu : Vector3 ℝ) : Vector3 ℝ :=
  (vecNormalize (vecGramSchmidt dpdu ns)).mulScalar (vecLength dpdu)

/-- The normal-map path of `Bump` (materials.h:122-134), returning the pair of
perturbed tangents. -/
noncomputable def bumpNormalMap (ns dpdu dpdv : Vector3 ℝ) :
    Vector3 ℝ × Vector3 ℝ :=
  let dpduNew := bumpNormalMapDpdu ns dpdu
  (dpduNew, (vecNormalize (ns.cross dpduNew)).mulScalar (vecLength dpdv))

/-- pbrt `MaterialEvalContext` (materials.h:28-43): a `TextureEvalContext`
extended with the outgoing direction and the geometric/shading frames. -/
structure MaterialEvalContext (α : Type) extends TextureEvalContext α where
  wo : Vector3 α
  n : Vector3 α
  ns : Vector3 α
  dpdus : Vector3 α
deriving DecidableEq

/-- Modelled from the spec: the pbrt `SampledWavelengths` type (an external
collaborator, a wavelength array with a terminate-secondary-wavelengths
mutator, spec §6) carries the four sampled wavelengths; our model adds a flag
recording whether the terminate-secondary mutator has been applied. -/
structure SampledWavelengths (α : Type) where
  lambda : Fin 4 → α
  secondaryTerminated : Bool

/-- Modelled from the spec: the `TerminateSecondary` mutator of
`SampledWavelengths`; only the fact that it was applied matters to the claims,
so the model records it in the flag. -/
def SampledWavelengths.terminateSecondary {α : Type}
    (lw : SampledWavelengths α) : SampledWavelengths α :=
  { lw with secondaryTerminated := true }

/-- Modelled from the spec: the pbrt `Spectrum` tagged pointer (external, spec
§1): an evaluation function `λ ↦ value` together with the dynamic-type tag
queried by `eta.Is<ConstantSpectrum>()` in materials.h:184/228. -/
structure SpectrumHandle (α : Type) where
  eval : α → α
  isConstantSpectrum : Bool

/-- pbrt `Clamp(val, low, high)` (util/math.h): branch structure preserved. -/
def clampVal {α : Type} [LinearOrder α] (val low high : α) : α :=
  if val < low then low else if val > high then high else val

/-- pbrt `SampledSpectrum`: `NSpectrumSamples = 4` spectral samples. -/
def SampledSpectrum (α : Type) : Type := Fin 4 → α

/-- Componentwise `Clamp` on a `SampledSpectrum`. -/
def clampSpectrum {α : Type} [LinearOrder α] (s : SampledSpectrum α)
    (low high : α) : SampledSpectrum α :=
  fun i => clampVal (s i) low high

/-- pbrt `ClampZero` on a `SampledSpectrum`: componentwise `max(0, ·)`. -/
def clampZeroSpectrum {α : Type} [LinearOrder α] [Zero α]
    (s : SampledSpectrum α) : SampledSpectrum α :=
  fun i => max 0 (s i)

/-- pbrt `TrowbridgeReitzDistribution` as constructed in `materials.h`: the
pair of roughness arguments (the sampling machinery of the distribution is an
external collaborator). -/
structure TrowbridgeReitzDistribution (α : Type) where
  alphaU : α
  alphaV : α
deriving DecidableEq

/-- The `BSDF(ctx.ns, ctx.dpdus, bxdf)` value returned by every `GetBSDF` in
`materials.h`: the shading frame data plus the concrete BxDF written into the
storage supplied by the caller. -/
structure BSDFResult (α : Type) (β : Type) where
  ns : Vector3 α
  dpdus : Vector3 α
  bxdf : β
deriving DecidableEq

/-- pbrt `DielectricBxDF` as constructed by `DielectricMaterial::GetBSDF`:
the sampled index of refraction and the microfacet distribution. -/
structure DielectricBxDF (α : Type) where
  eta : α
  distrib : TrowbridgeReitzDistribution α
deriving DecidableEq

/-- pbrt `ThinDielectricBxDF` as constructed by
`ThinDielectricMaterial::GetBSDF`. -/
structure ThinDielectricBxDF (α : Type) where
  eta : α
deriving DecidableEq

/-- `DielectricMaterial::GetBSDF` (materials.h:179-200).
`TrowbridgeReitzDistribution::RoughnessToAlpha` is an external collaborator
and enters as the parameter `roughnessToAlpha`; the texture evaluator and the
texture members of the material are parameters as in the source. -/
def dielectricGetBSDF {α : Type} [LinearOrderedField α] {T : Type}
    (roughnessToAlpha : α → α) (texEval : T → MaterialEvalContext α → α)
    (uRoughness vRoughness : T) (eta : SpectrumHandle α) (remapRoughness : Bool)
    (ctx : MaterialEvalContext α) (lambda : SampledWavelengths α) :
    BSDFResult α (DielectricBxDF α) × SampledWavelengths α :=
  let sampledEta := eta.eval (lambda.lambda 0)
  let lambda := if !eta.isConstantSpectrum then lambda.terminateSecondary
                else lambda
  let sampledEta := if sampledEta = 0 then 1 else sampledEta
  let urough := texEval uRoughness ctx
  let vrough := texEval vRoughness ctx
  let urough := if remapRoughness then roughnessToAlpha urough else urough
  let vrough := if remapRoughness then roughnessToAlpha vrough else vrough
  let distrib : TrowbridgeReitzDistribution α := ⟨urough, vrough⟩
  (⟨ctx.ns, ctx.dpdus, ⟨sampledEta, distrib⟩⟩, lambda)

/-- `ThinDielectricMaterial::GetBSDF` (materials.h:222-236). -/
def thinDielectricGetBSDF {α : Type} [LinearOrderedField α]
    (eta : SpectrumHandle α) (ctx : MaterialEvalContext α)
    (lambda : SampledWavelengths α) :
    BSDFResult α (ThinDielectricBxDF α) × SampledWavelengths α :=
  let sampledEta := eta.eval (lambda.lambda 0)
  let lambda := if !eta.isConstantSpectrum then lambda.terminateSecondary
                else lambda
  let sampledEta := if sampledEta = 0 then 1 else sampledEta
  (⟨ctx.ns, ctx.dpdus, ⟨sampledEta⟩⟩, lambda)

/-- `MixMaterial::ChooseMaterial` (materials.h:322-333).  `M` is the type of
material handles (the two stored sub-materials), `T` the amount-texture handle
type.  `HashFloat` lives in pbrt/util/hash.h, outside the given sources; per
the spec it is a pure, seed-free hash of the shading point, outgoing
direction and the two material identities into [0,1), so it enters here as
the function parameter `hashFloat`. -/
def chooseMaterial {α : Type} [LinearOrderedField α] {M T : Type}
    (hashFloat : Vector3 α → Vector3 α → M → M → α)
    (texEval : T → MaterialEvalContext α → α) (amount : T)
    (materials : Fin 2 → M) (ctx : MaterialEvalContext α) : M :=
  let amt := texEval amount ctx
  if amt ≤ 0 then materials 0
  else if amt ≥ 1 then materials 1
  else
    let u := hashFloat ctx.p ctx.wo (materials 0) (materials 1)
    if amt < u then materials 0 else materials 1

/-- pbrt `RoughDiffuseBxDF` as constructed by `DiffuseMaterial::GetBSDF` and
`DiffuseTransmissionMaterial::GetBSDF`: reflectance, transmittance and the
roughness angle sigma. -/
structure RoughDiffuseBxDF (α : Type) where
  r : SampledSpectrum α
  t : SampledSpectrum α
  sigma : α

/-- `DiffuseMaterial::GetBSDF` (materials.h:466-473). -/
def diffuseGetBSDF {α : Type} [LinearOrderedField α] {Tf Ts : Type}
    (texEvalF : Tf → MaterialEvalContext α → α)
    (texEvalS : Ts → MaterialEvalContext α → SampledWavelengths α →
      SampledSpectrum α)
    (reflectance : Ts) (sigma : Tf) (ctx : MaterialEvalContext α)
    (lambda : SampledWavelengths α) : BSDFResult α (RoughDiffuseBxDF α) :=
  let r := clampSpectrum (texEvalS reflectance ctx lambda) 0 1
  let sig := clampVal (texEvalF sigma ctx) 0 90
  ⟨ctx.ns, ctx.dpdus, ⟨r, fun _ => 0, sig⟩⟩

/-- `DiffuseTransmissionMaterial::GetBSDF` (materials.h:819-827).  Note the
source does not clamp `sigma` here. -/
def diffuseTransmissionGetBSDF {α : Type} [LinearOrderedField α] {Tf Ts : Type}
    (texEvalF : Tf → MaterialEvalContext α → α)
    (texEvalS : Ts → MaterialEvalContext α → SampledWavelengths α →
      SampledSpectrum α)
    (reflectance transmittance : Ts) (sigma : Tf) (scale : α)
    (ctx : MaterialEvalContext α) (lambda : SampledWavelengths α) :
    BSDFResult α (RoughDiffuseBxDF α) :=
  let r := clampSpectrum (fun i => scale * texEvalS reflectance ctx lambda i)
      0 1
  let t := clampSpectrum
      (fun i => scale * texEvalS transmittance ctx lambda i) 0 1
  let s := texEvalF sigma ctx
  ⟨ctx.ns, ctx.dpdus, ⟨r, t, s⟩⟩

/-- pbrt `ConductorBxDF` as constructed by `ConductorMaterial::GetBSDF`. -/
structure ConductorBxDF where
  distrib : TrowbridgeReitzDistribution ℝ
  etas : SampledSpectrum ℝ
  ks : SampledSpectrum ℝ

/-- The scalar reflectance-to-absorption inversion applied componentwise in
the reflectance branch of `ConductorMaterial::GetBSDF` (materials.h:511):
`k = 2·Sqrt(r) / Sqrt(ClampZero(1 - r))`. -/
noncomputable def kFromReflectance (r : ℝ) : ℝ :=
  2 * Real.sqrt r / Real.sqrt (max 0 (1 - r))

/-- `ConductorMaterial::GetBSDF` (materials.h:495-516), over `ℝ` because the
reflectance branch takes square roots.  When the `eta` texture is present the
source also reads the `k` texture, so the two travel together in the `some`
case. -/
noncomputable def conductorGetBSDF {Tf Ts : Type}
    (roughnessToAlpha : ℝ → ℝ) (texEvalF : Tf → MaterialEvalContext ℝ → ℝ)
    (texEvalS : Ts → MaterialEvalContext ℝ → SampledWavelengths ℝ →
      SampledSpectrum ℝ)
    (uRoughness vRoughness : Tf) (etaAndK : Option (Ts × Ts))
    (reflectance : Ts) (remapRoughness : Bool) (ctx : MaterialEvalContext ℝ)
    (lambda : SampledWavelengths ℝ) : BSDFResult ℝ ConductorBxDF :=
  let uRough := texEvalF uRoughness ctx
  let vRough := texEvalF vRoughness ctx
  let uRough := if remapRoughness then roughnessToAlpha uRough else uRough
  let vRough := if remapRoughness then roughnessToAlpha vRough else vRough
  let ek : SampledSpectrum ℝ × SampledSpectrum ℝ :=
    match etaAndK with
    | some (eta, k) => (texEvalS eta ctx lambda, texEvalS k ctx lambda)
    | none =>
      let r := texEvalS reflectance ctx lambda
      (fun _ => 1, fun i => kFromReflectance (r i))
  ⟨ctx.ns, ctx.dpdus, ⟨⟨uRough, vRough⟩, ek.1, ek.2⟩⟩

/-- pbrt `HairBxDF` as constructed by `HairMaterial::GetBSDF`. -/
structure HairBxDF (α : Type) where
  h : α
  eta : α
  sig_a : SampledSpectrum α
  beta_m : α
  beta_n : α
  alpha : α

/-- Outcome of a call whose CPU build may hit `LOG_FATAL` or a failed
`CHECK`. -/
inductive CallResult (β : Type) where
  | ok (val : β)
  | fatal (msg : String)
deriving DecidableEq

/-- Whether a `CallResult` is the fatal branch. -/
def CallResult.isFatal {β : Type} : CallResult β → Bool
  | .ok _ => false
  | .fatal _ => true

/-- `HairMaterial::GetBSDF` (materials.h:377-403).  The conversion helpers
`HairBxDF::SigmaAFromReflectance` and `HairBxDF::SigmaAFromConcentration`
(followed by `.Sample(lambda)`) are external collaborators and enter as
function parameters; the nullable `sigma_a`/`color` spectrum textures and
`eumelanin`/`pheomelanin` float textures are `Option`s.  The failed
`CHECK(eumelanin || pheomelanin)` is the fatal branch. -/
def hairGetBSDF {α : Type} [LinearOrderedField α] {Tf Ts : Type}
    (sigmaAFromReflectance : SampledSpectrum α → α → SampledWavelengths α →
      SampledSpectrum α)
    (sigmaAFromConcentration : α → α → SampledWavelengths α →
      SampledSpectrum α)
    (texEvalF : Tf → MaterialEvalContext α → α)
    (texEvalS : Ts → MaterialEvalContext α → SampledWavelengths α →
      SampledSpectrum α)
    (sigma_a color : Option Ts) (eumelanin pheomelanin : Option Tf)
    (eta beta_m beta_n alpha : Tf) (ctx : MaterialEvalContext α)
    (lambda : SampledWavelengths α) :
    CallResult (BSDFResult α (HairBxDF α)) :=
  let bm := max (1 / 100 : α) (texEvalF beta_m ctx)
  let bn := max (1 / 100 : α) (texEvalF beta_n ctx)
  let a := texEvalF alpha ctx
  let e := texEvalF eta ctx
  let mkResult : SampledSpectrum α → CallResult (BSDFResult α (HairBxDF α)) :=
    fun sig_a =>
      .ok ⟨ctx.ns, ctx.dpdus, ⟨-1 + 2 * ctx.uv.2, e, sig_a, bm, bn, a⟩⟩
  match sigma_a with
  | some t => mkResult (clampZeroSpectrum (texEvalS t ctx lambda))
  | none =>
    match color with
    | some c =>
      mkResult (sigmaAFromReflectance
        (clampSpectrum (texEvalS c ctx lambda) 0 1) bn lambda)
    | none =>
      if eumelanin.isSome || pheomelanin.isSome then
        mkResult (sigmaAFromConcentration
          (max 0 (match eumelanin with | some t => texEvalF t ctx | none => 0))
          (max 0
            (match pheomelanin with | some t => texEvalF t ctx | none => 0))
          lambda)
      else .fatal "CHECK(eumelanin || pheomelanin) failed"

/-- `DielectricMaterial::GetBSSRDF` (materials.h:173-175): an empty body — a
no-op, never fatal. -/
def dielectricGetBSSRDF {α : Type} {T : Type}
    (texEval : T → MaterialEvalContext α → α) (ctx : MaterialEvalContext α)
    (lambda : SampledWavelengths α) : CallResult Unit :=
  .ok ()

/-- `DielectricMaterial::HasSubsurfaceScattering` (materials.h:177). -/
def dielectricHasSubsurfaceScattering : Bool := false

/-- `MixMaterial::GetBSDF` (materials.h:335-342): `LOG_FATAL` when compiled
for CPU (`PBRT_IS_GPU_CODE` undefined), the default-constructed `BSDF` on the
GPU build.  `isGPUCode` selects the build. -/
def mixGetBSDF {α : Type} (isGPUCode : Bool) (ctx : MaterialEvalContext α)
    (lambda : SampledWavelengths α) : CallResult Unit :=
  if isGPUCode then .ok ()
  else .fatal "MixMaterial::GetBSDF() should not be called"

/-- `MixMaterial::GetBSSRDF` (materials.h:305-311): `LOG_FATAL` on the CPU
build, no-op on the GPU build. -/
def mixGetBSSRDF {α : Type} (isGPUCode : Bool) (ctx : MaterialEvalContext α)
    (lambda : SampledWavelengths α) : CallResult Unit :=
  if isGPUCode then .ok () else .fatal "Should not be called"

/-- `MixMaterial::GetDisplacement` (materials.h:285-291): `LOG_FATAL` on the
CPU build, `nullptr` on the GPU build. -/
def mixGetDisplacement {Tf : Type} (isGPUCode : Bool) :
    CallResult (Option Tf) :=
  if isGPUCode then .ok none else .fatal "Should not be called"

/-- `MixMaterial::GetNormalMap` (materials.h:293-299): `LOG_FATAL` on the CPU
build, `nullptr` on the GPU build. -/
def mixGetNormalMap {Im : Type} (isGPUCode : Bool) : CallResult (Option Im) :=
  if isGPUCode then .ok none else .fatal "Should not be called"

/-- The closed variant set behind the `Material` tagged pointer
(pbrt/base/material.h), restricted to the state the dispatched accessors of
materials.h:902-956 read: the stored nullable displacement texture of each
variant
(`Tf`) and normal-map image pointer (`Im`).  `HairMaterial` stores neither
(its accessors return `nullptr`, materials.h:408-411); `MixMaterial` stores
its two sub-materials.  The remaining per-variant texture state is carried by
the standalone `...GetBSDF` embeddings above and is not needed by the
dispatcher claims. -/
inductive Material (Tf Im : Type) : Type where
  | coatedDiffuse (displacement : Option Tf) (normalMap : Option Im)
  | coatedConductor (displacement : Option Tf) (normalMap : Option Im)
  | conductor (displacement : Option Tf) (normalMap : Option Im)
  | dielectric (displacement : Option Tf) (normalMap : Option Im)
  | diffuse (displacement : Option Tf) (normalMap : Option Im)
  | diffuseTransmission (displacement : Option Tf) (normalMap : Option Im)
  | hair
  | measured (displacement : Option Tf) (normalMap : Option Im)
  | subsurface (displacement : Option Tf) (normalMap : Option Im)
  | thinDielectric (displacement : Option Tf) (normalMap : Option Im)
  | mix (m0 m1 : Material Tf Im)
deriving DecidableEq

/-- Whether the variant is `MixMaterial`. -/
def Material.isMix {Tf Im : Type} : Material Tf Im → Bool
  | .mix _ _ => true
  | _ => false

/-- The displacement handle each non-Mix variant stores (`none` for
`HairMaterial`, which has no such member). -/
def Material.storedDisplacement {Tf Im : Type} : Material Tf Im → Option Tf
  | .coatedDiffuse d _ => d
  | .coatedConductor d _ => d
  | .conductor d _ => d
  | .dielectric d _ => d
  | .diffuse d _ => d
  | .diffuseTransmission d _ => d
  | .hair => none
  | .measured d _ => d
  | .subsurface d _ => d
  | .thinDielectric d _ => d
  | .mix _ _ => none

/-- The normal-map handle each non-Mix variant stores. -/
def Material.storedNormalMap {Tf Im : Type} : Material Tf Im → Option Im
  | .coatedDiffuse _ m => m
  | .coatedConductor _ m => m
  | .conductor _ m => m
  | .dielectric _ m => m
  | .diffuse _ m => m
  | .diffuseTransmission _ m => m
  | .hair => none
  | .measured _ m => m
  | .subsurface _ m => m
  | .thinDielectric _ m => m
  | .mix _ _ => none

/-- `Material::GetDisplacement` (materials.h:948-951): dispatch to the
accessor of the resolved variant.  Every variant but Mix returns its stored handle
(`HairMaterial` returns `nullptr`); Mix hits `LOG_FATAL` on the CPU build and
returns `nullptr` on the GPU build. -/
def Material.getDisplacement {Tf Im : Type} (isGPUCode : Bool) :
    Material Tf Im → CallResult (Option Tf)
  | .mix _ _ => mixGetDisplacement isGPUCode
  | m => .ok m.storedDisplacement

/-- `Material::GetNormalMap` (materials.h:953-956). -/
def Material.getNormalMap {Tf Im : Type} (isGPUCode : Bool) :
    Material Tf Im → CallResult (Option Im)
  | .mix _ _ => mixGetNormalMap isGPUCode
  | m => .ok m.storedNormalMap

/-- `Material::HasSubsurfaceScattering` (materials.h:943-946): only
`SubsurfaceMaterial` returns `true` (materials.h:776-777); for every other
variant `HasSubsurfaceScattering` is `constexpr false`. -/
def Material.hasSubsurfaceScattering {Tf Im : Type} : Material Tf Im → Bool
  | .subsurface _ _ => true
  | _ => false

/-- `Material::GetBSSRDF` (materials.h:924-941): for every variant whose
`BSSRDF` type alias is `void` — all but `SubsurfaceMaterial` — the dispatcher
returns `nullptr` directly, without calling the per-variant `GetBSSRDF` at all;
for `SubsurfaceMaterial` it allocates and fills a `TabulatedBSSRDF` (an
external collaborator, represented by `Unit` here) and returns it. -/
def Material.getBSSRDF {Tf Im : Type} :
    Material Tf Im → CallResult (Option Unit)
  | .subsurface _ _ => .ok (some ())
  | _ => .ok none

/-- Concrete evaluation context shared by the witness instantiations. -/
def ctx0 : MaterialEvalContext ℚ :=
  { p := Vector3.zero, dpdx := Vector3.zero, dpdy := Vector3.zero
    uv := (0, 0), dudx := 0, dudy := 0, dvdx := 0, dvdy := 0, faceIndex := 0
    wo := Vector3.zero, n := Vector3.zero, ns := Vector3.zero
    dpdus := Vector3.zero }

/-- Concrete wavelength sample shared by the witness instantiations. -/
def lw0 : SampledWavelengths ℚ := ⟨fun _ => 550, false⟩

/-- C1: in `DielectricMaterial::GetBSDF` and `ThinDielectricMaterial::GetBSDF`
the wavelengths come through unchanged exactly when the index-of-refraction
spectrum is a `ConstantSpectrum`; otherwise `TerminateSecondary` is applied to
them by the call. -/
theorem dielectric_secondary_termination {α : Type} [LinearOrderedField α]
    {T : Type} (roughnessToAlpha : α → α)
    (texEval : T → MaterialEvalContext α → α) (uRoughness vRoughness : T)
    (eta : SpectrumHandle α) (remapRoughness : Bool)
    (ctx : MaterialEvalContext α) (lambda : SampledWavelengths α) :
    (eta.isConstantSpectrum = true →
      (dielectricGetBSDF roughnessToAlpha texEval uRoughness vRoughness eta
          remapRoughness ctx lambda).2 = lambda
      ∧ (thinDielectricGetBSDF eta ctx lambda).2 = lambda)
    ∧ (eta.isConstantSpectrum = false →
      (dielectricGetBSDF roughnessToAlpha texEval uRoughness vRoughness eta
          remapRoughness ctx lambda).2 = lambda.terminateSecondary
      ∧ (thinDielectricGetBSDF eta ctx lambda).2
          = lambda.terminateSecondary) := by
  constructor <;> intro h <;>
    simp [dielectricGetBSDF, thinDielectricGetBSDF, h]

/-- Witness for C1: with a concrete `ConstantSpectrum`-tagged handle the
wavelengths are returned unchanged by both calls. -/
theorem dielectric_secondary_termination_witness :
    (⟨fun _ => 3 / 2, true⟩ : SpectrumHandle ℚ).isConstantSpectrum = true
    ∧ (dielectricGetBSDF (fun r => r) (fun (_ : Unit) _ => (0 : ℚ)) () ()
        ⟨fun _ => 3 / 2, true⟩ false ctx0 lw0).2 = lw0
    ∧ (thinDielectricGetBSDF (⟨fun _ => 3 / 2, true⟩ : SpectrumHandle ℚ)
        ctx0 lw0).2 = lw0 := by
  refine ⟨rfl, ?_, ?_⟩
  · exact (dielectric_secondary_termination (fun r => r)
      (fun (_ : Unit) _ => (0 : ℚ)) () () ⟨fun _ => 3 / 2, true⟩ false
      ctx0 lw0).1 rfl |>.1
  · exact (dielectric_secondary_termination (fun r => r)
      (fun (_ : Unit) _ => (0 : ℚ)) () () ⟨fun _ => 3 / 2, true⟩ false
      ctx0 lw0).1 rfl |>.2

/-- C7: in both dielectric `GetBSDF`s, a spectrum whose sample at the first
wavelength is exactly 0 yields the same call result as one sampling 1 there
(same `ConstantSpectrum` tag): the constructed BxDF carries index of
refraction 1 and everything else agrees. -/
theorem dielectric_zero_eta_is_one {α : Type} [LinearOrderedField α]
    {T : Type} (roughnessToAlpha : α → α)
    (texEval : T → MaterialEvalContext α → α) (uRoughness vRoughness : T)
    (eta0 eta1 : SpectrumHandle α) (remapRoughness : Bool)
    (ctx : MaterialEvalContext α) (lambda : SampledWavelengths α)
    (h0 : eta0.eval (lambda.lambda 0) = 0)
    (h1 : eta1.eval (lambda.lambda 0) = 1)
    (htag : eta0.isConstantSpectrum = eta1.isConstantSpectrum) :
    dielectricGetBSDF roughnessToAlpha texEval uRoughness vRoughness eta0
        remapRoughness ctx lambda
      = dielectricGetBSDF roughnessToAlpha texEval uRoughness vRoughness eta1
        remapRoughness ctx lambda
    ∧ thinDielectricGetBSDF eta0 ctx lambda
      = thinDielectricGetBSDF eta1 ctx lambda := by
  constructor <;>
    simp [dielectricGetBSDF, thinDielectricGetBSDF, h0, h1, htag]

/-- Witness for C7: a spectrum sampling 0 at the first wavelength gives the
same dielectric call result as one sampling 1 there. -/
theorem dielectric_zero_eta_is_one_witness :
    (⟨fun _ => 0, true⟩ : SpectrumHandle ℚ).eval (lw0.lambda 0) = 0
    ∧ dielectricGetBSDF (fun r => r) (fun (_ : Unit) _ => (0 : ℚ)) () ()
        ⟨fun _ => 0, true⟩ false ctx0 lw0
      = dielectricGetBSDF (fun r => r) (fun (_ : Unit) _ => (0 : ℚ)) () ()
        ⟨fun _ => 1, true⟩ false ctx0 lw0 := by
  refine ⟨rfl, ?_⟩
  exact (dielectric_zero_eta_is_one (fun r => r)
    (fun (_ : Unit) _ => (0 : ℚ)) () () ⟨fun _ => 0, true⟩ ⟨fun _ => 1, true⟩
    false ctx0 lw0 rfl rfl rfl).1

/-- C2: `MixMaterial::ChooseMaterial` with an evaluated amount ≤ 0 returns
material 0 and with an amount ≥ 1 returns material 1, for every hash function
(the tie-break is not consulted); strictly between 0 and 1 the selection is
exactly the deterministic comparison of the amount against the hash of the
shading point, outgoing direction and the two sub-material identities — a
pure function of those arguments. -/
theorem mix_choose_material_deterministic {α : Type} [LinearOrderedField α]
    {M T : Type} (hashFloat : Vector3 α → Vector3 α → M → M → α)
    (texEval : T → MaterialEvalContext α → α) (amount : T)
    (materials : Fin 2 → M) (ctx : MaterialEvalContext α) :
    (texEval amount ctx ≤ 0 →
      chooseMaterial hashFloat texEval amount materials ctx = materials 0)
    ∧ (1 ≤ texEval amount ctx →
      chooseMaterial hashFloat texEval amount materials ctx = materials 1)
    ∧ (0 < texEval amount ctx → texEval amount ctx < 1 →
      chooseMaterial hashFloat texEval amount materials ctx
        = if texEval amount ctx
            < hashFloat ctx.p ctx.wo (materials 0) (materials 1)
          then materials 0 else materials 1) := by
  refine ⟨fun h => ?_, fun h => ?_, fun h0 h1 => ?_⟩
  · simp [chooseMaterial, h]
  · simp only [chooseMaterial, ge_iff_le, h, if_true]
    rw [if_neg (by simpa using not_le.mpr (lt_of_lt_of_le zero_lt_one h))]
  · simp [chooseMaterial, not_le.mpr h0, not_le.mpr h1]

/-- Witness for C2: with an amount texture evaluating to 0 the first
sub-material is chosen regardless of the hash value. -/
theorem mix_choose_material_deterministic_witness :
    ((fun (_ : Unit) (_ : MaterialEvalContext ℚ) => (0 : ℚ)) () ctx0 ≤ 0)
    ∧ chooseMaterial (fun _ _ (_ : Nat) _ => (37 : ℚ))
        (fun (_ : Unit) _ => (0 : ℚ)) () (fun i => (i : Nat)) ctx0
      = (0 : Nat) := by
  refine ⟨le_refl 0, ?_⟩
  exact (mix_choose_material_deterministic (fun _ _ (_ : Nat) _ => (37 : ℚ))
    (fun (_ : Unit) _ => (0 : ℚ)) () (fun i => (i : Nat)) ctx0).1 (le_refl 0)

/-- C3 counterexample: `DielectricMaterial` reports no subsurface-scattering
capability, yet calling its `GetBSSRDF` is not a fatal error — the body is
empty (materials.h:173-175) and the `Material::GetBSSRDF` dispatcher simply
returns a null handle for it (materials.h:924-941), so the claim that such a
call is fatal on CPU fails at this concrete input. -/
theorem getBSSRDF_non_subsurface_not_fatal_counterexample :
    dielectricHasSubsurfaceScattering = false
    ∧ (dielectricGetBSSRDF (fun (_ : Unit) (_ : MaterialEvalContext ℚ) =>
        (0 : ℚ)) ctx0 lw0).isFatal = false
    ∧ (Material.getBSSRDF
        (Material.dielectric none none : Material Unit Unit)).isFatal
        = false :=
  ⟨rfl, rfl, rfl⟩

/-- C3 (amended): calling `GetBSDF` on the Mix variant directly is a fatal
error on the CPU build, and so is calling `GetBSSRDF` on the Mix variant
directly; but on every variant that reports no subsurface-scattering
capability the dispatched `Material::GetBSSRDF` is not an error — it returns
a null subsurface handle without reaching any fatal branch. -/
theorem mix_getBSDF_fatal_non_subsurface_bssrdf_null {α : Type}
    {Tf Im : Type} (ctx : MaterialEvalContext α)
    (lambda : SampledWavelengths α) :
    mixGetBSDF false ctx lambda
      = CallResult.fatal "MixMaterial::GetBSDF() should not be called"
    ∧ mixGetBSSRDF false ctx lambda = CallResult.fatal "Should not be called"
    ∧ ∀ m : Material Tf Im, m.hasSubsurfaceScattering = false →
        m.getBSSRDF = CallResult.ok none := by
  refine ⟨rfl, rfl, fun m hm => ?_⟩
  cases m with
  | subsurface d n => simp [Material.hasSubsurfaceScattering] at hm
  | _ => rfl

/-- Witness for C3 (amended): the dielectric variant reports no subsurface
scattering and its dispatched `GetBSSRDF` yields the null handle. -/
theorem mix_getBSDF_fatal_non_subsurface_bssrdf_null_witness :
    (Material.dielectric none none : Material Unit Unit).hasSubsurfaceScattering
      = false
    ∧ mixGetBSDF false ctx0 lw0
      = CallResult.fatal "MixMaterial::GetBSDF() should not be called"
    ∧ (Material.dielectric none none : Material Unit Unit).getBSSRDF
      = CallResult.ok none := by
  refine ⟨rfl,
    (@mix_getBSDF_fatal_non_subsurface_bssrdf_null ℚ Unit Unit ctx0 lw0).1,
    ?_⟩
  exact (@mix_getBSDF_fatal_non_subsurface_bssrdf_null ℚ Unit Unit ctx0
    lw0).2.2 (Material.dielectric none none) rfl

/-- C10: on the Mix variant `GetDisplacement` / `GetNormalMap` hit the fatal
branch on the CPU build and return a null handle on the GPU build, while on
every non-Mix variant both dispatched accessors return that stored
(possibly null) handle without error, on either build. -/
theorem mix_accessors_fatal_others_stored {Tf Im : Type}
    (m0 m1 : Material Tf Im) (isGPUCode : Bool) :
    Material.getDisplacement false (Material.mix m0 m1)
      = CallResult.fatal "Should not be called"
    ∧ Material.getNormalMap false (Material.mix m0 m1)
      = CallResult.fatal "Should not be called"
    ∧ Material.getDisplacement true (Material.mix m0 m1)
      = CallResult.ok none
    ∧ Material.getNormalMap true (Material.mix m0 m1) = CallResult.ok none
    ∧ ∀ m : Material Tf Im, m.isMix = false →
        Material.getDisplacement isGPUCode m
            = CallResult.ok m.storedDisplacement
        ∧ Material.getNormalMap isGPUCode m
            = CallResult.ok m.storedNormalMap := by
  refine ⟨rfl, rfl, rfl, rfl, fun m hm => ?_⟩
  cases m with
  | mix a b => simp [Material.isMix] at hm
  | _ => exact ⟨rfl, rfl⟩

/-- Witness for C10: a diffuse material with a stored displacement handle and
no normal map returns exactly those through the dispatched accessors. -/
theorem mix_accessors_fatal_others_stored_witness :
    (Material.diffuse (some 5) none : Material Nat Nat).isMix = false
    ∧ Material.getDisplacement false
        (Material.diffuse (some 5) none : Material Nat Nat)
      = CallResult.ok (some 5)
    ∧ Material.getNormalMap false
        (Material.diffuse (some 5) none : Material Nat Nat)
      = CallResult.ok none := by
  refine ⟨rfl, ?_, ?_⟩
  · exact ((mix_accessors_fatal_others_stored
      (Material.hair : Material Nat Nat) Material.hair false).2.2.2.2
      (Material.diffuse (some 5) none) rfl).1
  · exact ((mix_accessors_fatal_others_stored
      (Material.hair : Material Nat Nat) Material.hair false).2.2.2.2
      (Material.diffuse (some 5) none) rfl).2

/-- Unfolded form of vector addition. -/
theorem Vector3.add_def {α : Type} [Add α] (a b : Vector3 α) :
    a + b = ⟨a.x + b.x, a.y + b.y, a.z + b.z⟩ := rfl

/-- Unfolded form of vector subtraction. -/
theorem Vector3.sub_def {α : Type} [Sub α] (a b : Vector3 α) :
    a - b = ⟨a.x - b.x, a.y - b.y, a.z - b.z⟩ := rfl

/-- Unfolded form of scalar multiplication. -/
theorem Vector3.smul_def {α : Type} [Mul α] (c : α) (v : Vector3 α) :
    c • v = ⟨c * v.x, c * v.y, c * v.z⟩ := rfl

/-- Bump-evaluation context used by the concrete bump-mapping instantiations:
non-trivial shading normal derivative `dndu` and constant screen-space
derivatives of zero (so the finite-difference step falls back to the
5·10⁻⁴ floor). -/
def ctxBump : BumpEvalContext ℚ :=
  { p := Vector3.zero, uv := (0, 0)
    shading := { n := ⟨0, 0, 1⟩, dpdu := ⟨1, 0, 0⟩, dpdv := ⟨0, 1, 0⟩
                 dndu := ⟨1, 0, 0⟩, dndv := ⟨0, 0, 0⟩ }
    dudx := 0, dudy := 0, dvdx := 0, dvdy := 0
    dpdx := Vector3.zero, dpdy := Vector3.zero, faceIndex := 0 }

/-- C4 counterexample: with a displacement texture that is constantly 1 and a
non-zero shading normal derivative, the perturbed `*dpdu` differs from the
original `ctx.shading.dpdu` — the `displace * dndu` term survives even though
the finite-difference slope is zero, so "perturbed tangents equal the
originals" fails at this input. -/
theorem bump_const_displacement_counterexample :
    (bumpDisplacement (fun (_ : Unit) (_ : TextureEvalContext ℚ) => (1 : ℚ))
        () ctxBump).1 ≠ ctxBump.shading.dpdu := by
  have h : (bumpDisplacement
      (fun (_ : Unit) (_ : TextureEvalContext ℚ) => (1 : ℚ)) () ctxBump).1
      = ⟨2, 0, 0⟩ := by
    simp only [bumpDisplacement, ctxBump]
    rw [Vector3.smul_def, Vector3.smul_def, Vector3.add_def, Vector3.add_def]
    norm_num
  rw [h]
  simp only [ctxBump, ne_eq, Vector3.mk.injEq]
  norm_num

/-- C4 (amended): on the displacement-field path, if the displacement texture
evaluates to the same constant value `c` at every texture context then the
finite-difference slope vanishes and each perturbed tangent equals the
original tangent plus `c` times the corresponding shading normal derivative;
the tangents equal the originals exactly when those correction terms vanish
(in particular for `c = 0`). -/
theorem bump_const_displacement_adds_dndu {α : Type} [LinearOrderedField α]
    {T : Type} (texEval : T → TextureEvalContext α → α) (displacement : T)
    (ctx : BumpEvalContext α) (c : α)
    (hconst : ∀ tctx, texEval displacement tctx = c) :
    (bumpDisplacement texEval displacement ctx).1
        = ctx.shading.dpdu + c • ctx.shading.dndu
    ∧ (bumpDisplacement texEval displacement ctx).2
        = ctx.shading.dpdv + c • ctx.shading.dndv := by
  constructor <;>
  · simp only [bumpDisplacement, hconst]
    rw [Vector3.smul_def, Vector3.smul_def, Vector3.add_def, Vector3.add_def,
      Vector3.add_def]
    simp only [Vector3.mk.injEq]
    refine ⟨?_, ?_, ?_⟩ <;> ring

/-- Witness for C4 (amended): at the concrete context `ctxBump` with constant
displacement 1, the perturbed `*dpdu` is the original plus `dndu`. -/
theorem bump_const_displacement_adds_dndu_witness :
    (bumpDisplacement (fun (_ : Unit) (_ : TextureEvalContext ℚ) => (1 : ℚ))
        () ctxBump).1
      = ctxBump.shading.dpdu + (1 : ℚ) • ctxBump.shading.dndu :=
  (bump_const_displacement_adds_dndu
    (fun (_ : Unit) (_ : TextureEvalContext ℚ) => (1 : ℚ)) () ctxBump 1
    (fun _ => rfl)).1

/-- Lower clamp bound: `Clamp` never returns below `low` when the bounds are
ordered. -/
theorem le_clampVal {α : Type} [LinearOrder α] (val low high : α)
    (h : low ≤ high) : low ≤ clampVal val low high := by
  unfold clampVal
  split_ifs with h1 h2
  · exact le_refl low
  · exact h
  · exact not_lt.mp h1

/-- Upper clamp bound: `Clamp` never returns above `high` when the bounds are
ordered. -/
theorem clampVal_le {α : Type} [LinearOrder α] (val low high : α)
    (h : low ≤ high) : clampVal val low high ≤ high := by
  unfold clampVal
  split_ifs with h1 h2
  · exact h
  · exact le_refl high
  · exact not_lt.mp h2

/-- C6 counterexample: `DiffuseTransmissionMaterial::GetBSDF` does not clamp
the roughness-angle parameter — with a sigma texture evaluating to 100 the
constructed `RoughDiffuseBxDF` carries sigma 100, outside [0, 90], so the
claim that both diffuse-family variants clamp sigma fails at this input. -/
theorem diffuse_transmission_sigma_unclamped_counterexample :
    ¬ ((diffuseTransmissionGetBSDF
        (fun (_ : Unit) (_ : MaterialEvalContext ℚ) => (100 : ℚ))
        (fun (_ : Unit) (_ : MaterialEvalContext ℚ)
          (_ : SampledWavelengths ℚ) => (fun _ => 0 : SampledSpectrum ℚ))
        () () () 1 ctx0 lw0).bxdf.sigma ≤ 90) := by
  norm_num [diffuseTransmissionGetBSDF]

/-- C6 (amended): `DiffuseMaterial::GetBSDF` clamps its reflectance to [0, 1]
componentwise and its sigma to [0, 90]; `DiffuseTransmissionMaterial::GetBSDF`
clamps its scaled reflectance and scaled transmittance to [0, 1]
componentwise but passes sigma through unclamped, whatever the texture
returns. -/
theorem diffuse_family_clamps {α : Type} [LinearOrderedField α]
    {Tf Ts : Type} (texEvalF : Tf → MaterialEvalContext α → α)
    (texEvalS : Ts → MaterialEvalContext α → SampledWavelengths α →
      SampledSpectrum α)
    (reflectance transmittance : Ts) (sigmaT : Tf) (scale : α)
    (ctx : MaterialEvalContext α) (lambda : SampledWavelengths α) :
    (∀ i, 0 ≤ (diffuseGetBSDF texEvalF texEvalS reflectance sigmaT ctx
          lambda).bxdf.r i
      ∧ (diffuseGetBSDF texEvalF texEvalS reflectance sigmaT ctx
          lambda).bxdf.r i ≤ 1)
    ∧ 0 ≤ (diffuseGetBSDF texEvalF texEvalS reflectance sigmaT ctx
          lambda).bxdf.sigma
    ∧ (diffuseGetBSDF texEvalF texEvalS reflectance sigmaT ctx
          lambda).bxdf.sigma ≤ 90
    ∧ (∀ i, 0 ≤ (diffuseTransmissionGetBSDF texEvalF texEvalS reflectance
            transmittance sigmaT scale ctx lambda).bxdf.r i
        ∧ (diffuseTransmissionGetBSDF texEvalF texEvalS reflectance
            transmittance sigmaT scale ctx lambda).bxdf.r i ≤ 1
        ∧ 0 ≤ (diffuseTransmissionGetBSDF texEvalF texEvalS reflectance
            transmittance sigmaT scale ctx lambda).bxdf.t i
        ∧ (diffuseTransmissionGetBSDF texEvalF texEvalS reflectance
            transmittance sigmaT scale ctx lambda).bxdf.t i ≤ 1)
    ∧ (diffuseTransmissionGetBSDF texEvalF texEvalS reflectance transmittance
          sigmaT scale ctx lambda).bxdf.sigma = texEvalF sigmaT ctx := by
  refine ⟨fun i => ⟨?_, ?_⟩, ?_, ?_, fun i => ⟨?_, ?_, ?_, ?_⟩, rfl⟩ <;>
    simp only [diffuseGetBSDF, diffuseTransmissionGetBSDF, clampSpectrum] <;>
    first
      | exact le_clampVal _ _ _ (by norm_num)
      | exact clampVal_le _ _ _ (by norm_num)

/-- The squared length of a real vector is nonnegative. -/
theorem normSq_nonneg (v : Vector3 ℝ) : 0 ≤ v.normSq :=
  add_nonneg (add_nonneg (mul_self_nonneg v.x) (mul_self_nonneg v.y))
    (mul_self_nonneg v.z)

/-- The squared length vanishes only on the zero vector. -/
theorem normSq_eq_zero_iff (v : Vector3 ℝ) :
    v.normSq = 0 ↔ v = Vector3.zero := by
  constructor
  · intro h
    have h' : v.x * v.x + v.y * v.y + v.z * v.z = 0 := h
    have hx : v.x * v.x = 0 := le_antisymm
      (by nlinarith [mul_self_nonneg v.y, mul_self_nonneg v.z])
      (mul_self_nonneg v.x)
    have hy : v.y * v.y = 0 := le_antisymm
      (by nlinarith [mul_self_nonneg v.x, mul_self_nonneg v.z])
      (mul_self_nonneg v.y)
    have hz : v.z * v.z = 0 := le_antisymm
      (by nlinarith [mul_self_nonneg v.x, mul_self_nonneg v.y])
      (mul_self_nonneg v.z)
    cases v
    simp only [Vector3.zero, Vector3.mk.injEq]
    exact ⟨mul_self_eq_zero.mp hx, mul_self_eq_zero.mp hy,
      mul_self_eq_zero.mp hz⟩
  · intro h
    subst h
    simp [Vector3.zero, Vector3.normSq]

/-- A nonzero vector has positive length. -/
theorem vecLength_pos (v : Vector3 ℝ) (h : v ≠ Vector3.zero) :
    0 < vecLength v :=
  Real.sqrt_pos.mpr (lt_of_le_of_ne (normSq_nonneg v)
    (fun h0 => h ((normSq_eq_zero_iff v).mp h0.symm)))

/-- Length scales multiplicatively under `vector * scalar`. -/
theorem vecLength_mulScalar (v : Vector3 ℝ) (s : ℝ) :
    vecLength (v.mulScalar s) = vecLength v * |s| := by
  unfold vecLength Vector3.mulScalar Vector3.normSq
  have h : v.x * s * (v.x * s) + v.y * s * (v.y * s) + v.z * s * (v.z * s)
      = (v.x * v.x + v.y * v.y + v.z * v.z) * s ^ 2 := by ring
  have hnn : 0 ≤ v.x * v.x + v.y * v.y + v.z * v.z := normSq_nonneg v
  rw [h, Real.sqrt_mul hnn, Real.sqrt_sq_eq_abs]

/-- Length scales by the reciprocal under `vector / scalar`. -/
theorem vecLength_divScalar (v : Vector3 ℝ) (s : ℝ) :
    vecLength (v.divScalar s) = vecLength v / |s| := by
  have h : v.divScalar s = v.mulScalar s⁻¹ := by
    simp only [Vector3.divScalar, Vector3.mulScalar, div_eq_mul_inv]
  rw [h, vecLength_mulScalar, abs_inv, div_eq_mul_inv]

/-- `Normalize` of a nonzero vector has unit length. -/
theorem vecLength_normalize (v : Vector3 ℝ) (h : v ≠ Vector3.zero) :
    vecLength (vecNormalize v) = 1 := by
  unfold vecNormalize
  rw [vecLength_divScalar, abs_of_pos (vecLength_pos v h)]
  exact div_self (ne_of_gt (vecLength_pos v h))

/-- Bump-evaluation context for the C5 counterexample: the displacement
texture returning the `u` coordinate has unit finite-difference slope there,
so the perturbed `*dpdu` picks up a full shading-normal component and grows in
length. -/
def ctxBump5 : BumpEvalContext ℝ :=
  { p := Vector3.zero, uv := (0, 0)
    shading := { n := ⟨0, 0, 1⟩, dpdu := ⟨1, 0, 0⟩, dpdv := ⟨0, 1, 0⟩
                 dndu := Vector3.zero, dndv := Vector3.zero }
    dudx := 2, dudy := 0, dvdx := 0, dvdy := 0
    dpdx := Vector3.zero, dpdy := Vector3.zero, faceIndex := 0 }

/-- C5 counterexample: on the displacement-field path of `Bump` the returned
`*dpdu` does not preserve the length of `ctx.shading.dpdu` — here the original
tangent has length 1 but the perturbed tangent has length √2. -/
theorem bump_displacement_length_counterexample :
    vecLength (bumpDisplacement
        (fun (_ : Unit) (tctx : TextureEvalContext ℝ) => tctx.uv.1) ()
        ctxBump5).1
      ≠ vecLength ctxBump5.shading.dpdu := by
  have h : (bumpDisplacement
      (fun (_ : Unit) (tctx : TextureEvalContext ℝ) => tctx.uv.1) ()
      ctxBump5).1 = ⟨1, 0, 1⟩ := by
    simp only [bumpDisplacement, ctxBump5,
      BumpEvalContext.toTextureEvalContext, Vector3.zero]
    rw [Vector3.smul_def, Vector3.smul_def, Vector3.add_def, Vector3.add_def]
    norm_num
  rw [h]
  have h1 : vecLength (⟨1, 0, 1⟩ : Vector3 ℝ) = Real.sqrt 2 := by
    unfold vecLength Vector3.normSq
    norm_num
  have h2 : vecLength ctxBump5.shading.dpdu = 1 := by
    simp only [ctxBump5]
    unfold vecLength Vector3.normSq
    norm_num
  rw [h1, h2]
  intro heq
  have h3 : ((2 : ℝ)) = 1 := by
    have h4 := Real.sq_sqrt (by norm_num : (0 : ℝ) ≤ 2)
    rw [heq] at h4
    simpa using h4.symm
  norm_num at h3

/-- C5 (amended): only the normal-map path of `Bump` preserves the tangent
lengths.  For every sampled shading normal `ns`, whenever the Gram–Schmidt
residue and the cross product it normalizes are nonzero, the returned `*dpdu`
has the length of `ctx.shading.dpdu` and the returned `*dpdv` the length of
`ctx.shading.dpdv`; the displacement-field path does not preserve lengths in
general. -/
theorem bump_normal_map_preserves_lengths (ns dpdu dpdv : Vector3 ℝ)
    (hg : vecGramSchmidt dpdu ns ≠ Vector3.zero)
    (hc : ns.cross (bumpNormalMapDpdu ns dpdu) ≠ Vector3.zero) :
    vecLength (bumpNormalMap ns dpdu dpdv).1 = vecLength dpdu
    ∧ vecLength (bumpNormalMap ns dpdu dpdv).2 = vecLength dpdv := by
  constructor
  · show vecLength (bumpNormalMapDpdu ns dpdu) = vecLength dpdu
    unfold bumpNormalMapDpdu
    rw [vecLength_mulScalar, vecLength_normalize _ hg, one_mul]
    exact abs_of_nonneg (Real.sqrt_nonneg _)
  · show vecLength ((vecNormalize
        (ns.cross (bumpNormalMapDpdu ns dpdu))).mulScalar (vecLength dpdv))
      = vecLength dpdv
    rw [vecLength_mulScalar, vecLength_normalize _ hc, one_mul]
    exact abs_of_nonneg (Real.sqrt_nonneg _)

/-- Witness for C5 (amended): with `ns = (0,0,1)`, `dpdu = (2,0,0)`,
`dpdv = (0,3,0)` both hypotheses hold and the normal-map path returns tangents
of the original lengths. -/
theorem bump_normal_map_preserves_lengths_witness :
    vecLength (bumpNormalMap ⟨0, 0, 1⟩ ⟨2, 0, 0⟩ ⟨0, 3, 0⟩).1
      = vecLength (⟨2, 0, 0⟩ : Vector3 ℝ)
    ∧ vecLength (bumpNormalMap ⟨0, 0, 1⟩ ⟨2, 0, 0⟩ ⟨0, 3, 0⟩).2
      = vecLength (⟨0, 3, 0⟩ : Vector3 ℝ) := by
  have hg : vecGramSchmidt (⟨2, 0, 0⟩ : Vector3 ℝ) ⟨0, 0, 1⟩
      ≠ Vector3.zero := by
    simp only [vecGramSchmidt, Vector3.dot, Vector3.zero]
    rw [Vector3.smul_def, Vector3.sub_def]
    simp only [ne_eq, Vector3.mk.injEq]
    norm_num
  have hgeq : vecGramSchmidt (⟨2, 0, 0⟩ : Vector3 ℝ) ⟨0, 0, 1⟩
      = ⟨2, 0, 0⟩ := by
    simp only [vecGramSchmidt, Vector3.dot]
    rw [Vector3.smul_def, Vector3.sub_def]
    norm_num
  have hlen : vecLength (⟨2, 0, 0⟩ : Vector3 ℝ) = 2 := by
    unfold vecLength Vector3.normSq
    rw [show (2 : ℝ) * 2 + 0 * 0 + 0 * 0 = 2 ^ 2 by norm_num]
    exact Real.sqrt_sq (by norm_num)
  have hdpdu : bumpNormalMapDpdu ⟨0, 0, 1⟩ ⟨2, 0, 0⟩ = ⟨2, 0, 0⟩ := by
    unfold bumpNormalMapDpdu
    rw [hgeq, hlen]
    unfold vecNormalize
    rw [hlen]
    simp only [Vector3.divScalar, Vector3.mulScalar]
    norm_num
  have hc : Vector3.cross (⟨0, 0, 1⟩ : Vector3 ℝ)
      (bumpNormalMapDpdu ⟨0, 0, 1⟩ ⟨2, 0, 0⟩) ≠ Vector3.zero := by
    rw [hdpdu]
    simp only [Vector3.cross, Vector3.zero, ne_eq, Vector3.mk.injEq]
    norm_num
  exact bump_normal_map_preserves_lengths ⟨0, 0, 1⟩ ⟨2, 0, 0⟩ ⟨0, 3, 0⟩ hg hc

/-- Concrete real-valued evaluation context for witness instantiations. -/
def ctx0R : MaterialEvalContext ℝ :=
  { p := Vector3.zero, dpdx := Vector3.zero, dpdy := Vector3.zero
    uv := (0, 0), dudx := 0, dudy := 0, dvdx := 0, dvdy := 0, faceIndex := 0
    wo := Vector3.zero, n := Vector3.zero, ns := Vector3.zero
    dpdus := Vector3.zero }

/-- Concrete real-valued wavelength sample for witness instantiations. -/
def lw0R : SampledWavelengths ℝ := ⟨fun _ => 550, false⟩

/-- C8: in the reflectance-inversion branch of `ConductorMaterial::GetBSDF` (no
eta/k textures supplied) the BxDF carries `eta = 1` and, componentwise,
`k = 2·sqrt(r)/sqrt(clamp≥0(1−r))`; the derived absorption is 0 at
reflectance 0 and is strictly increasing in the reflectance on [0, 1). -/
theorem conductor_reflectance_inversion {Tf Ts : Type}
    (roughnessToAlpha : ℝ → ℝ) (texEvalF : Tf → MaterialEvalContext ℝ → ℝ)
    (texEvalS : Ts → MaterialEvalContext ℝ → SampledWavelengths ℝ →
      SampledSpectrum ℝ)
    (uRoughness vRoughness : Tf) (reflectance : Ts) (remapRoughness : Bool)
    (ctx : MaterialEvalContext ℝ) (lambda : SampledWavelengths ℝ) :
    (∀ i, (conductorGetBSDF roughnessToAlpha texEvalF texEvalS uRoughness
          vRoughness none reflectance remapRoughness ctx lambda).bxdf.ks i
        = kFromReflectance (texEvalS reflectance ctx lambda i)
      ∧ (conductorGetBSDF roughnessToAlpha texEvalF texEvalS uRoughness
          vRoughness none reflectance remapRoughness ctx lambda).bxdf.etas i
        = 1)
    ∧ kFromReflectance 0 = 0
    ∧ ∀ r1 r2 : ℝ, 0 ≤ r1 → r1 < r2 → r2 < 1 →
        kFromReflectance r1 < kFromReflectance r2 := by
  refine ⟨fun i => ⟨rfl, rfl⟩, ?_, ?_⟩
  · unfold kFromReflectance
    simp [Real.sqrt_zero]
  · intro r1 r2 h0 h12 h21
    unfold kFromReflectance
    have hr2 : 0 < r2 := lt_of_le_of_lt h0 h12
    have h1r1 : 0 < 1 - r1 := by linarith
    have h1r2 : 0 < 1 - r2 := by linarith
    rw [max_eq_right h1r1.le, max_eq_right h1r2.le]
    have hs1 : Real.sqrt r1 < Real.sqrt r2 := Real.sqrt_lt_sqrt h0 h12
    have hs2 : Real.sqrt (1 - r2) < Real.sqrt (1 - r1) :=
      Real.sqrt_lt_sqrt h1r2.le (by linarith)
    have hd1 : 0 < Real.sqrt (1 - r1) := Real.sqrt_pos.mpr h1r1
    have hd2 : 0 < Real.sqrt (1 - r2) := Real.sqrt_pos.mpr h1r2
    have hn2 : 0 < Real.sqrt r2 := Real.sqrt_pos.mpr hr2
    have hn1 : 0 ≤ Real.sqrt r1 := Real.sqrt_nonneg r1
    rw [div_lt_div_iff₀ hd1 hd2]
    nlinarith [mul_pos (sub_pos.mpr hs1) hd2, mul_pos hn2 (sub_pos.mpr hs2)]

/-- Witness for C8: the derived absorption at reflectance 0 is 0 and is
strictly below the one derived at reflectance 1/2. -/
theorem conductor_reflectance_inversion_witness :
    (0 : ℝ) ≤ 0 ∧ (0 : ℝ) < 1 / 2 ∧ (1 / 2 : ℝ) < 1
    ∧ kFromReflectance 0 = 0
    ∧ kFromReflectance 0 < kFromReflectance (1 / 2) := by
  have h := conductor_reflectance_inversion (fun r => r)
    (fun (_ : Unit) _ => (0 : ℝ))
    (fun (_ : Unit) _ _ => (fun _ => 0 : SampledSpectrum ℝ)) () () () false
    ctx0R lw0R
  exact ⟨le_refl 0, by norm_num, by norm_num, h.2.1,
    h.2.2 0 (1 / 2) (le_refl 0) (by norm_num) (by norm_num)⟩

/-- C9: `HairMaterial::GetBSDF` derives the absorption coefficient from
exactly one source, checked in priority order — the explicit `sigma_a` texture
if present; otherwise the `color` texture, clamped to [0, 1] and converted via
`SigmaAFromReflectance` with the floored secondary roughness; otherwise the
melanin concentrations — and the call is a fatal failed `CHECK` when neither
pigment texture is present in that last case. -/
theorem hair_sigma_a_priority {α : Type} [LinearOrderedField α]
    {Tf Ts : Type}
    (sigmaAFromReflectance : SampledSpectrum α → α → SampledWavelengths α →
      SampledSpectrum α)
    (sigmaAFromConcentration : α → α → SampledWavelengths α →
      SampledSpectrum α)
    (texEvalF : Tf → MaterialEvalContext α → α)
    (texEvalS : Ts → MaterialEvalContext α → SampledWavelengths α →
      SampledSpectrum α)
    (sigma_a color : Option Ts) (eumelanin pheomelanin : Option Tf)
    (eta beta_m beta_n alpha : Tf) (ctx : MaterialEvalContext α)
    (lambda : SampledWavelengths α) :
    (∀ t, sigma_a = some t →
      hairGetBSDF sigmaAFromReflectance sigmaAFromConcentration texEvalF
          texEvalS sigma_a color eumelanin pheomelanin eta beta_m beta_n
          alpha ctx lambda
        = CallResult.ok ⟨ctx.ns, ctx.dpdus,
            ⟨-1 + 2 * ctx.uv.2, texEvalF eta ctx,
              clampZeroSpectrum (texEvalS t ctx lambda),
              max (1 / 100) (texEvalF beta_m ctx),
              max (1 / 100) (texEvalF beta_n ctx), texEvalF alpha ctx⟩⟩)
    ∧ (∀ c, sigma_a = none → color = some c →
      hairGetBSDF sigmaAFromReflectance sigmaAFromConcentration texEvalF
          texEvalS sigma_a color eumelanin pheomelanin eta beta_m beta_n
          alpha ctx lambda
        = CallResult.ok ⟨ctx.ns, ctx.dpdus,
            ⟨-1 + 2 * ctx.uv.2, texEvalF eta ctx,
              sigmaAFromReflectance
                (clampSpectrum (texEvalS c ctx lambda) 0 1)
                (max (1 / 100) (texEvalF beta_n ctx)) lambda,
              max (1 / 100) (texEvalF beta_m ctx),
              max (1 / 100) (texEvalF beta_n ctx), texEvalF alpha ctx⟩⟩)
    ∧ (sigma_a = none → color = none →
        (eumelanin.isSome || pheomelanin.isSome) = true →
      hairGetBSDF sigmaAFromReflectance sigmaAFromConcentration texEvalF
          texEvalS sigma_a color eumelanin pheomelanin eta beta_m beta_n
          alpha ctx lambda
        = CallResult.ok ⟨ctx.ns, ctx.dpdus,
            ⟨-1 + 2 * ctx.uv.2, texEvalF eta ctx,
              sigmaAFromConcentration
                (max 0 (match eumelanin with
                        | some t => texEvalF t ctx
                        | none => 0))
                (max 0 (match pheomelanin with
                        | some t => texEvalF t ctx
                        | none => 0)) lambda,
              max (1 / 100) (texEvalF beta_m ctx),
              max (1 / 100) (texEvalF beta_n ctx), texEvalF alpha ctx⟩⟩)
    ∧ (sigma_a = none → color = none → eumelanin = none →
        pheomelanin = none →
      hairGetBSDF sigmaAFromReflectance sigmaAFromConcentration texEvalF
          texEvalS sigma_a color eumelanin pheomelanin eta beta_m beta_n
          alpha ctx lambda
        = CallResult.fatal "CHECK(eumelanin || pheomelanin) failed") := by
  refine ⟨fun t ht => ?_, fun c hs hc => ?_, fun hs hc hp => ?_,
    fun hs hc he hp => ?_⟩
  · subst ht
    rfl
  · subst hs
    subst hc
    rfl
  · subst hs
    subst hc
    simp only [hairGetBSDF, hp, if_true]
  · subst hs
    subst hc
    subst he
    subst hp
    rfl

/-- Witness for C9: with no absorption texture, no color texture and neither
pigment concentration texture, the call is the fatal failed `CHECK`. -/
theorem hair_sigma_a_priority_witness :
    hairGetBSDF (fun _ _ _ => (fun _ => 0 : SampledSpectrum ℚ))
        (fun _ _ _ => (fun _ => 0 : SampledSpectrum ℚ))
        (fun (_ : Unit) _ => (0 : ℚ))
        (fun (_ : Unit) _ _ => (fun _ => 0 : SampledSpectrum ℚ))
        none none none none () () () () ctx0 lw0
      = CallResult.fatal "CHECK(eumelanin || pheomelanin) failed" :=
  (hair_sigma_a_priority (fun _ _ _ => (fun _ => 0 : SampledSpectrum ℚ))
    (fun _ _ _ => (fun _ => 0 : SampledSpectrum ℚ))
    (fun (_ : Unit) _ => (0 : ℚ))
    (fun (_ : Unit) _ _ => (fun _ => 0 : SampledSpectrum ℚ))
    none none none none () () () () ctx0 lw0).2.2.2 rfl rfl rfl rfl

end PbrtMaterials
